import Mathlib

/-!
Verification of the tool-adapter contract of the Postman-MCP-Server repository
(Google Maps Platform tool adapters).

Each adapter file has the shape: build URL or body from the arguments, fetch,
check the status, parse the body, return the data, with a catch that either
returns an error envelope (JSON adapters) or rethrows (binary adapters).
The definitions below embed that control flow shallowly: the outcome of the
single fetch call is an explicit value of type `FetchOutcome`, JavaScript
values are embedded as `JsonValue`, a thrown exception crossing the adapter
boundary is `Except.error`, and a resolved value is `Except.ok`.
-/

set_option autoImplicit false

/-- Embedding of a JavaScript JSON value (the values adapters return and the
bodies upstream responses parse to). Numbers are restricted to integers,
which covers every value the claims mention. -/
inductive JsonValue where
  | null
  | bool (b : Bool)
  | num (n : Int)
  | str (s : String)
  | arr (xs : List JsonValue)
  | obj (fields : List (String × JsonValue))

/-- JSON string escaping as performed by `JSON.stringify` for the characters
that can occur in the inputs of this development. -/
def jsonEscapeChar (c : Char) : String :=
  if c = '"' then "\\\""
  else if c = '\\' then "\\\\"
  else if c = '\n' then "\\n"
  else if c = '\r' then "\\r"
  else if c = '\t' then "\\t"
  else String.mk [c]

def jsonEscape (s : String) : String :=
  String.join (s.data.map jsonEscapeChar)

def jsonQuote (s : String) : String :=
  "\"" ++ jsonEscape s ++ "\""

mutual

/-- Embedding of `JSON.stringify` on the `JsonValue` model: object fields in
insertion order, no whitespace. -/
def jsonSerialize : JsonValue → String
  | .null => "null"
  | .bool true => "true"
  | .bool false => "false"
  | .num n => toString n
  | .str s => jsonQuote s
  | .arr xs => "[" ++ jsonSerializeArr xs ++ "]"
  | .obj fs => "\x7b" ++ jsonSerializeObj fs ++ "\x7d"

def jsonSerializeArr : List JsonValue → String
  | [] => ""
  | [v] => jsonSerialize v
  | v :: w :: vs => jsonSerialize v ++ "," ++ jsonSerializeArr (w :: vs)

def jsonSerializeObj : List (String × JsonValue) → String
  | [] => ""
  | [(k, v)] => jsonQuote k ++ ":" ++ jsonSerialize v
  | (k, v) :: f :: fs => jsonQuote k ++ ":" ++ jsonSerialize v ++ "," ++ jsonSerializeObj (f :: fs)

end

/-- One upstream HTTP response as the adapter code observes it: the numeric
status, the status text, the raw body (what `response.text()` and
`response.buffer()` yield), and the result of `response.json()`, which either
produces a parsed value or throws with a parse-failure message. -/
structure UpstreamResponse where
  status : Nat
  statusText : String
  bodyText : String
  bodyJson : Except String JsonValue

/-- Outcome of the single `fetch` call: either the transport fails (the
promise rejects with an error whose message is carried here) or a response
arrives. -/
inductive FetchOutcome where
  | networkError (msg : String)
  | response (r : UpstreamResponse)

/-- `response.ok` of the fetch API: status in the range 200 to 299. -/
def statusOk (s : Nat) : Bool :=
  decide (200 ≤ s) && decide (s ≤ 299)

/-- The uniform error envelope value returned by JSON adapters. -/
def errorEnvelope (msg : String) : JsonValue :=
  .obj [("error", .str msg)]

/-- Whether a value has the shape of the error envelope. -/
def isErrorEnvelope : JsonValue → Bool
  | .obj [("error", .str _)] => true
  | _ => false

/-- Whether an adapter outcome resolved (no exception crossed the boundary). -/
def resolved {α : Type} : Except String α → Bool
  | .ok _ => true
  | .error _ => false

/-- Whether an adapter outcome resolved to an error envelope. -/
def resolvedToEnvelope : Except String JsonValue → Bool
  | .ok v => isErrorEnvelope v
  | .error _ => false

/-- The response-handling code shared verbatim by every JSON adapter file
(for example src/tools/google-maps-platform/google-maps-platform-core-ap-is/
directions.js lines 41 to 62): on a rejected fetch the catch clause returns
the envelope; on a non-2xx response the error body is parsed with
`response.json()` and its serialization is thrown, then caught; if parsing
the error body itself throws, that failure is caught instead; on a 2xx
response the parsed body is returned, and a parse failure there is caught as
well. `ctx` is the fixed per-adapter message prefix of the catch clause. -/
def jsonAdapterHandle (ctx : String) : FetchOutcome → Except String JsonValue
  | .networkError m => .ok (errorEnvelope (ctx ++ m))
  | .response r =>
    if statusOk r.status then
      match r.bodyJson with
      | .ok v => .ok v
      | .error m => .ok (errorEnvelope (ctx ++ m))
    else
      match r.bodyJson with
      | .ok v => .ok (errorEnvelope (ctx ++ jsonSerialize v))
      | .error m => .ok (errorEnvelope (ctx ++ m))

/-- executeFunction of get_directions (directions.js), response part. -/
def directionsRun : FetchOutcome → Except String JsonValue :=
  jsonAdapterHandle "An error occurred while fetching directions: "

/-- executeFunction of geocode_address (src/unnamed/part_003), response part. -/
def geocodeRun : FetchOutcome → Except String JsonValue :=
  jsonAdapterHandle "An error occurred while geocoding the address: "

/-- executeFunction of get_route (src/unnamed/part_000), response part. -/
def getRouteRun : FetchOutcome → Except String JsonValue :=
  jsonAdapterHandle "An error occurred while getting the route: "

/-- executeFunction of get_route_matrix (get-a-route-matrix.js), response part. -/
def routeMatrixRun : FetchOutcome → Except String JsonValue :=
  jsonAdapterHandle "An error occurred while getting the route matrix: "

/-- executeFunction of get_forecast (get-forecast.js), response part. -/
def forecastRun : FetchOutcome → Except String JsonValue :=
  jsonAdapterHandle "An error occurred while getting the pollen forecast: "

/-- executeFunction of get_heatmap_tiles (get-heatmap-tiles.js), response
part. Unlike the other JSON adapters this file reads the body with
`response.text()` on both branches: a non-2xx body text is thrown and caught
into the envelope, and a 2xx body is returned as a raw string, never parsed. -/
def heatmapRun : FetchOutcome → Except String JsonValue
  | .networkError m =>
      .ok (errorEnvelope ("An error occurred while fetching heatmap tiles: " ++ m))
  | .response r =>
      if statusOk r.status then .ok (.str r.bodyText)
      else .ok (errorEnvelope ("An error occurred while fetching heatmap tiles: " ++ r.bodyText))

/-- executeFunction of get_street_view (street-view.js), response part. The
binary adapter: a non-2xx status throws `HTTP error! status: <status>`, and
the catch clause rethrows with its prefix instead of returning an envelope.
The resolved value is the raw image bytes, modelled by the raw body. -/
def streetViewRun : FetchOutcome → Except String String
  | .networkError m =>
      .error ("An error occurred while retrieving the Street View image: " ++ m)
  | .response r =>
      if statusOk r.status then .ok r.bodyText
      else .error ("An error occurred while retrieving the Street View image: HTTP error! status: "
        ++ toString r.status)

/-- executeFunction of get_place_photo (get-a-route-matrix.js, second
adapter in the file), response part. The other binary adapter: a non-2xx
status throws `Error: <status> <statusText>` and the catch clause rethrows. -/
def placePhotoRun : FetchOutcome → Except String String
  | .networkError m =>
      .error ("An error occurred while retrieving the place photo: " ++ m)
  | .response r =>
      if statusOk r.status then .ok r.bodyText
      else .error ("An error occurred while retrieving the place photo: Error: "
        ++ toString r.status ++ " " ++ r.statusText)

/-!
## Request construction

The query-string adapters build the URL with `new URL(base)` followed by
`url.searchParams.append(name, value)` calls. `append` coerces its value to
a string, so an unset environment variable (JavaScript `undefined`) becomes
the literal text `undefined`. Optional arguments are guarded by JavaScript
truthiness tests (`if (x) append(...)`): an absent value, an empty string,
the number 0 and `false` are all skipped.
-/

/-- JavaScript string coercion of a possibly-undefined environment value,
as performed by `searchParams.append` and template literals. -/
def jsEnvString : Option String → String
  | some s => s
  | none => "undefined"

/-- `if (x) url.searchParams.append(name, x)` for a string argument:
appended exactly when present and truthy (nonempty). -/
def optStrParam (name : String) : Option String → List (String × String)
  | some s => if s = "" then [] else [(name, s)]
  | none => []

/-- `if (x) url.searchParams.append(name, x)` for a numeric argument:
appended exactly when present and truthy (nonzero), coerced to a string. -/
def optIntParam (name : String) : Option Int → List (String × String)
  | some n => if n = 0 then [] else [(name, toString n)]
  | none => []

/-- `if (x) url.searchParams.append(name, x)` for a boolean argument:
appended exactly when present and true, coerced to the string `true`. -/
def optBoolParam (name : String) : Option Bool → List (String × String)
  | some b => if b then [(name, "true")] else []
  | none => []

/-- Arguments of get_directions (directions.js). A `none` field is an
argument the caller omitted; the destructuring defaults of the source then
apply. -/
structure DirectionsArgs where
  origin : String
  destination : String
  mode : Option String
  language : Option String
  units : Option String
  departure_time : Option Int
  arrival_time : Option Int
  alternatives : Option Bool
  avoid : Option String
  waypoints : Option String
  region : Option String
  traffic_model : Option String

/-- The query-parameter list built by get_directions (directions.js lines
25 to 38), in append order. `origin`, `destination`, `mode`, `language` and
`units` are appended unconditionally (with defaults driving, en, metric);
the remaining arguments are truthiness-guarded; `traffic_model` defaults to
best_guess and is then truthiness-guarded; the key is appended last. -/
def directionsQuery (a : DirectionsArgs) (apiKey : Option String) : List (String × String) :=
  [("origin", a.origin), ("destination", a.destination),
   ("mode", a.mode.getD "driving"),
   ("language", a.language.getD "en"),
   ("units", a.units.getD "metric")]
  ++ optIntParam "departure_time" a.departure_time
  ++ optIntParam "arrival_time" a.arrival_time
  ++ optBoolParam "alternatives" (some (a.alternatives.getD false))
  ++ optStrParam "avoid" a.avoid
  ++ optStrParam "waypoints" a.waypoints
  ++ optStrParam "region" a.region
  ++ optStrParam "traffic_model" (some (a.traffic_model.getD "best_guess"))
  ++ [("key", jsEnvString apiKey)]

/-- Arguments of get_street_view (street-view.js). -/
structure StreetViewArgs where
  size : String
  fov : Option Int
  heading : Option Int
  location : Option String
  pano : Option String
  pitch : Option Int
  radius : Option Int
  return_error_code : Option Bool
  signature : Option String
  source : Option String

/-- The query-parameter list built by get_street_view (street-view.js lines
22 to 33), in append order. `size` is unconditional; `fov`, `pitch`,
`radius` and `return_error_code` receive destructuring defaults 90, 0, 50
and false and are then truthiness-guarded (so the pitch default 0 and a
false return_error_code are never appended); the rest are guarded; the key
is appended last. -/
def streetViewQuery (a : StreetViewArgs) (apiKey : Option String) : List (String × String) :=
  [("size", a.size)]
  ++ optIntParam "fov" (some (a.fov.getD 90))
  ++ optIntParam "heading" a.heading
  ++ optStrParam "location" a.location
  ++ optStrParam "pano" a.pano
  ++ optIntParam "pitch" (some (a.pitch.getD 0))
  ++ optIntParam "radius" (some (a.radius.getD 50))
  ++ optBoolParam "return_error_code" (some (a.return_error_code.getD false))
  ++ optStrParam "signature" a.signature
  ++ optStrParam "source" a.source
  ++ [("key", jsEnvString apiKey)]

/-- Arguments of geocode_address (src/unnamed/part_003). -/
structure GeocodeArgs where
  address : String
  bounds : Option String
  components : Option String
  latlng : Option String
  place_id : Option String
  language : Option String
  region : Option String

/-- The query-parameter list built by geocode_address (src/unnamed/part_003
lines 19 to 27), in append order: `address` unconditional, four guarded
optionals, then `language` and `region` unconditional with destructuring
defaults en and en, then the key. -/
def geocodeQuery (a : GeocodeArgs) (apiKey : Option String) : List (String × String) :=
  [("address", a.address)]
  ++ optStrParam "bounds" a.bounds
  ++ optStrParam "components" a.components
  ++ optStrParam "latlng" a.latlng
  ++ optStrParam "place_id" a.place_id
  ++ [("language", a.language.getD "en"),
      ("region", a.region.getD "en"),
      ("key", jsEnvString apiKey)]

/-- The query-parameter list built by get_forecast (get-forecast.js lines
15 to 28): the three required arguments, then the key appended only when
the environment variable is set (`if (apiKey) url.searchParams.append`). -/
def forecastQuery (longitude latitude days : Int) (apiKey : Option String) :
    List (String × String) :=
  [("location.longitude", toString longitude),
   ("location.latitude", toString latitude),
   ("days", toString days)]
  ++ (match apiKey with
      | some k => [("key", k)]
      | none => [])

/-!
## URL serialization

`URLSearchParams` serializes pairs as `name=value&...` in
application/x-www-form-urlencoded form: ASCII alphanumerics and `*-._` are
kept, a space becomes `+`, every other character is percent-encoded from its
UTF-8 bytes with uppercase hex digits.
-/

def hexDigit (n : Nat) : Char :=
  if n < 10 then Char.ofNat (48 + n) else Char.ofNat (55 + n)

def percentByte (b : Nat) : String :=
  String.mk ['%', hexDigit (b / 16), hexDigit (b % 16)]

/-- UTF-8 encoding of one code point as a byte list. -/
def utf8Bytes (n : Nat) : List Nat :=
  if n < 128 then [n]
  else if n < 2048 then [192 + n / 64, 128 + n % 64]
  else if n < 65536 then [224 + n / 4096, 128 + (n / 64) % 64, 128 + n % 64]
  else [240 + n / 262144, 128 + (n / 4096) % 64, 128 + (n / 64) % 64, 128 + n % 64]

/-- Bytes left unencoded by the form-urlencoded serializer:
ASCII alphanumerics and `* - . _`. -/
def formSafeByte (b : Nat) : Bool :=
  (decide (48 ≤ b) && decide (b ≤ 57)) || (decide (65 ≤ b) && decide (b ≤ 90))
  || (decide (97 ≤ b) && decide (b ≤ 122)) || b == 42 || b == 45 || b == 46 || b == 95

def formEncodeChar (c : Char) : String :=
  if c = ' ' then "+"
  else if formSafeByte c.toNat then String.mk [c]
  else String.join ((utf8Bytes c.toNat).map percentByte)

/-- Form-urlencoded encoding of one string. -/
def formEncode (s : String) : String :=
  String.join (s.data.map formEncodeChar)

/-- `URLSearchParams.toString()`: the serialized query string of a pair list. -/
def queryStringOf : List (String × String) → String
  | [] => ""
  | [p] => formEncode p.1 ++ "=" ++ formEncode p.2
  | p :: q :: ps => formEncode p.1 ++ "=" ++ formEncode p.2 ++ "&" ++ queryStringOf (q :: ps)

/-- An upstream HTTP request as issued by one `fetch` call: method, full URL,
header list and optional body. Each adapter executes exactly one such call. -/
structure HttpRequest where
  method : String
  url : String
  headers : List (String × String)
  body : Option String

/-- The single request issued by get_route (src/unnamed/part_000 lines 11 to
30): a POST to the computeRoutes endpoint with the field-mask, content-type
and API-key headers and a JSON body rebuilt from the two addresses. -/
def getRouteRequest (originAddress destinationAddress : String) (apiKey : Option String) :
    HttpRequest :=
  ⟨"POST",
   "https://routes.googleapis.com/directions/v2:computeRoutes",
   [("X-Goog-FieldMask", "*"), ("Content-Type", "application/json"),
    ("X-Goog-Api-Key", jsEnvString apiKey)],
   some (jsonSerialize (.obj
     [("origin", .obj [("address", .str originAddress)]),
      ("destination", .obj [("address", .str destinationAddress)])]))⟩

/-- The single request issued by geocode_address (src/unnamed/part_003 lines
19 to 35): a GET on the geocode endpoint with the serialized query string. -/
def geocodeRequest (a : GeocodeArgs) (apiKey : Option String) : HttpRequest :=
  ⟨"GET",
   "https://www.googleapis.com/maps/api/geocode/json?" ++ queryStringOf (geocodeQuery a apiKey),
   [("Accept", "application/json")],
   none⟩

/-- The single request issued by get_video (src/unnamed/part_001 lines 241
to 259): `url.toString()` already ends in `?videoId=...`, and the fetch call
then concatenates a second `?key=...` onto it with a template literal. -/
def getVideoRequest (videoId : String) (apiKey : Option String) : HttpRequest :=
  ⟨"GET",
   "https://aerialview.googleapis.com/v1/videos:lookupVideo?"
     ++ queryStringOf [("videoId", videoId)] ++ "?key=" ++ jsEnvString apiKey,
   [("Content-Type", "application/json")],
   none⟩

/-!
## Server-side view of a URL

Written from the standard URL grammar (not from the repository): the query
component is everything after the first `?`, and it is read as `&`-separated
`name=value` pairs, the name being what precedes the first `=`. This is the
view an upstream server has of the query parameters of an issued request,
used to compare the issued request against what the spec promises.
-/

/-- Split a character list at the first occurrence of `sep`: the part before
it, and `some` rest after it when `sep` occurs at all. -/
def splitAtFirst (sep : Char) : List Char → List Char × Option (List Char)
  | [] => ([], none)
  | c :: rest =>
    if c = sep then ([], some rest)
    else
      let r := splitAtFirst sep rest
      (c :: r.1, r.2)

/-- Split a character list on every occurrence of `sep`. -/
def splitOnEvery (sep : Char) : List Char → List (List Char)
  | [] => [[]]
  | c :: rest =>
    let r := splitOnEvery sep rest
    if c = sep then [] :: r
    else
      match r with
      | [] => [[c]]
      | h :: t => (c :: h) :: t

/-- The query component of a URL: everything after the first `?`. -/
def urlQueryComponent (url : String) : Option (List Char) :=
  (splitAtFirst '?' url.data).2

/-- One `name=value` pair: the name precedes the first `=`. -/
def queryPairOf (cs : List Char) : String × String :=
  let kv := splitAtFirst '=' cs
  (String.mk kv.1, String.mk (kv.2.getD []))

/-- The query parameters a server reads from a URL: the `&`-separated
`name=value` pairs of the query component. -/
def queryParamsOfUrl (url : String) : List (String × String) :=
  match urlQueryComponent url with
  | none => []
  | some [] => []
  | some q => (splitOnEvery '&' q).map queryPairOf

/-!
## Failure taxonomy and shared handling lemmas
-/

/-- The three failure kinds of the spec taxonomy: transport failure, non-2xx
upstream status, malformed (unparseable) response body. -/
def failureOutcome : FetchOutcome → Bool
  | .networkError _ => true
  | .response r =>
      !statusOk r.status || (match r.bodyJson with | .error _ => true | .ok _ => false)

/-- The failure kinds that do not involve parsing the body: transport
failure and non-2xx status. -/
def hardFailureOutcome : FetchOutcome → Bool
  | .networkError _ => true
  | .response r => !statusOk r.status

theorem jsonAdapterHandle_resolved (ctx : String) (o : FetchOutcome) :
    resolved (jsonAdapterHandle ctx o) = true := by
  cases o with
  | networkError m => rfl
  | response r =>
    by_cases h : statusOk r.status <;> cases hb : r.bodyJson <;>
      simp [jsonAdapterHandle, h, hb, resolved]

theorem jsonAdapterHandle_envelope (ctx : String) (o : FetchOutcome)
    (h : failureOutcome o = true) :
    resolvedToEnvelope (jsonAdapterHandle ctx o) = true := by
  cases o with
  | networkError m => rfl
  | response r =>
    by_cases hs : statusOk r.status <;> cases hb : r.bodyJson <;>
      simp_all [jsonAdapterHandle, failureOutcome, resolvedToEnvelope,
        errorEnvelope, isErrorEnvelope]

theorem jsonAdapterHandle_pass (ctx : String) (r : UpstreamResponse) (v : JsonValue)
    (hs : statusOk r.status = true) (hb : r.bodyJson = .ok v) :
    jsonAdapterHandle ctx (.response r) = .ok v := by
  simp [jsonAdapterHandle, hs, hb]

theorem jsonAdapterHandle_badparse (ctx : String) (r : UpstreamResponse) (m : String)
    (hs : statusOk r.status = false) (hb : r.bodyJson = .error m) :
    jsonAdapterHandle ctx (.response r) = .ok (errorEnvelope (ctx ++ m)) := by
  simp [jsonAdapterHandle, hs, hb]

theorem heatmapRun_resolved (o : FetchOutcome) : resolved (heatmapRun o) = true := by
  cases o with
  | networkError m => rfl
  | response r => by_cases h : statusOk r.status <;> simp [heatmapRun, h, resolved]

theorem heatmapRun_envelope (o : FetchOutcome) (h : hardFailureOutcome o = true) :
    resolvedToEnvelope (heatmapRun o) = true := by
  cases o with
  | networkError m => rfl
  | response r =>
    simp_all [heatmapRun, hardFailureOutcome, resolvedToEnvelope, errorEnvelope,
      isErrorEnvelope]

@[simp] theorem mem_optStrParam (name : String) (v : Option String) (p : String × String) :
    p ∈ optStrParam name v ↔ p.1 = name ∧ v = some p.2 ∧ p.2 ≠ "" := by
  cases v with
  | none => simp [optStrParam]
  | some s =>
    by_cases h : s = "" <;> simp [optStrParam, h, Prod.ext_iff] <;> aesop

@[simp] theorem mem_optIntParam (name : String) (v : Option Int) (p : String × String) :
    p ∈ optIntParam name v ↔ ∃ n, v = some n ∧ n ≠ 0 ∧ p = (name, toString n) := by
  cases v with
  | none => simp [optIntParam]
  | some n =>
    by_cases h : n = 0 <;> simp [optIntParam, h, Prod.ext_iff]

@[simp] theorem mem_optBoolParam (name : String) (v : Option Bool) (p : String × String) :
    p ∈ optBoolParam name v ↔ v = some true ∧ p = (name, "true") := by
  cases v with
  | none => simp [optBoolParam]
  | some b => cases b <;> simp [optBoolParam, Prod.ext_iff]

/-!
## Claims
-/

/-- Claim C1: for every JSON-returning adapter and for every failure of the
three kinds (network error, non-2xx upstream status, malformed response
body) the executable resolves to a value of shape error envelope, and no
exception ever crosses the adapter boundary. For get_heatmap_tiles the body
is never parsed, so the failures it can encounter are exactly the first two
kinds. -/
theorem claim1_json_adapters_error_envelope (o : FetchOutcome) :
    (resolved (directionsRun o) = true ∧ resolved (geocodeRun o) = true
      ∧ resolved (getRouteRun o) = true ∧ resolved (routeMatrixRun o) = true
      ∧ resolved (forecastRun o) = true ∧ resolved (heatmapRun o) = true)
    ∧ (failureOutcome o = true →
        resolvedToEnvelope (directionsRun o) = true
        ∧ resolvedToEnvelope (geocodeRun o) = true
        ∧ resolvedToEnvelope (getRouteRun o) = true
        ∧ resolvedToEnvelope (routeMatrixRun o) = true
        ∧ resolvedToEnvelope (forecastRun o) = true)
    ∧ (hardFailureOutcome o = true → resolvedToEnvelope (heatmapRun o) = true) := by
  refine ⟨⟨?_, ?_, ?_, ?_, ?_, ?_⟩, fun h => ⟨?_, ?_, ?_, ?_, ?_⟩, fun h => ?_⟩
  · exact jsonAdapterHandle_resolved _ o
  · exact jsonAdapterHandle_resolved _ o
  · exact jsonAdapterHandle_resolved _ o
  · exact jsonAdapterHandle_resolved _ o
  · exact jsonAdapterHandle_resolved _ o
  · exact heatmapRun_resolved o
  · exact jsonAdapterHandle_envelope _ o h
  · exact jsonAdapterHandle_envelope _ o h
  · exact jsonAdapterHandle_envelope _ o h
  · exact jsonAdapterHandle_envelope _ o h
  · exact jsonAdapterHandle_envelope _ o h
  · exact heatmapRun_envelope o h

/-- Witness for C1: a concrete 500 response with an unparseable body
resolves, and resolves to an error envelope. -/
theorem claim1_witness :
    resolved (directionsRun
      (.response ⟨500, "Internal Server Error", "oops", .error "Unexpected token o"⟩)) = true
    ∧ resolvedToEnvelope (directionsRun
      (.response ⟨500, "Internal Server Error", "oops", .error "Unexpected token o"⟩)) = true
    ∧ resolvedToEnvelope (heatmapRun
      (.response ⟨500, "Internal Server Error", "oops", .error "Unexpected token o"⟩)) = true :=
  ⟨(claim1_json_adapters_error_envelope
      (.response ⟨500, "Internal Server Error", "oops", .error "Unexpected token o"⟩)).1.1,
   ((claim1_json_adapters_error_envelope
      (.response ⟨500, "Internal Server Error", "oops", .error "Unexpected token o"⟩)).2.1
      (by decide)).1,
   (claim1_json_adapters_error_envelope
      (.response ⟨500, "Internal Server Error", "oops", .error "Unexpected token o"⟩)).2.2
      (by decide)⟩

/-- Claim C2: for the two binary adapters (get_street_view, get_place_photo)
a non-2xx upstream response surfaces a thrown failure, never an envelope
value, and the message of the thrown failure contains the HTTP status. -/
theorem claim2_binary_adapters_throw (r : UpstreamResponse)
    (h : statusOk r.status = false) :
    (streetViewRun (.response r) =
        .error ("An error occurred while retrieving the Street View image: HTTP error! status: "
          ++ toString r.status)
      ∧ ∃ pre suf, streetViewRun (.response r) = .error (pre ++ toString r.status ++ suf))
    ∧ (placePhotoRun (.response r) =
        .error ("An error occurred while retrieving the place photo: Error: "
          ++ toString r.status ++ " " ++ r.statusText)
      ∧ ∃ pre suf, placePhotoRun (.response r) = .error (pre ++ toString r.status ++ suf)) := by
  refine ⟨⟨?_, "An error occurred while retrieving the Street View image: HTTP error! status: ",
      "", ?_⟩,
    ?_, "An error occurred while retrieving the place photo: Error: ", " " ++ r.statusText, ?_⟩
  · simp [streetViewRun, h]
  · simp [streetViewRun, h, String.append_empty]
  · simp [placePhotoRun, h]
  · simp [placePhotoRun, h, String.append_assoc]

/-- Witness for C2: a concrete 404 response makes both binary adapters throw
messages containing 404. -/
theorem claim2_witness :
    streetViewRun (.response ⟨404, "Not Found", "", .error "nope"⟩) =
      .error "An error occurred while retrieving the Street View image: HTTP error! status: 404"
    ∧ placePhotoRun (.response ⟨404, "Not Found", "", .error "nope"⟩) =
      .error "An error occurred while retrieving the place photo: Error: 404 Not Found" :=
  ⟨(claim2_binary_adapters_throw ⟨404, "Not Found", "", .error "nope"⟩ (by decide)).1.1.trans
      (congrArg Except.error (by decide)),
   (claim2_binary_adapters_throw ⟨404, "Not Found", "", .error "nope"⟩ (by decide)).2.1.trans
      (congrArg Except.error (by decide))⟩

/-- Claim C9: when the upstream response is non-2xx and its body is not
parseable as JSON, the failure thrown while parsing the error body inside
the try block is caught by the same catch clause, so the adapter still
resolves to an envelope, and the message carries the body-parse failure
text rather than a serialized upstream error body. -/
theorem claim9_error_body_parse_failure_caught (r : UpstreamResponse) (m : String)
    (hs : statusOk r.status = false) (hb : r.bodyJson = .error m) :
    directionsRun (.response r) =
      .ok (errorEnvelope ("An error occurred while fetching directions: " ++ m))
    ∧ geocodeRun (.response r) =
      .ok (errorEnvelope ("An error occurred while geocoding the address: " ++ m))
    ∧ getRouteRun (.response r) =
      .ok (errorEnvelope ("An error occurred while getting the route: " ++ m))
    ∧ routeMatrixRun (.response r) =
      .ok (errorEnvelope ("An error occurred while getting the route matrix: " ++ m))
    ∧ forecastRun (.response r) =
      .ok (errorEnvelope ("An error occurred while getting the pollen forecast: " ++ m)) :=
  ⟨jsonAdapterHandle_badparse _ r m hs hb, jsonAdapterHandle_badparse _ r m hs hb,
   jsonAdapterHandle_badparse _ r m hs hb, jsonAdapterHandle_badparse _ r m hs hb,
   jsonAdapterHandle_badparse _ r m hs hb⟩

/-- Witness for C9: a 404 whose HTML body fails to parse still resolves to
an envelope carrying the parse-failure message. -/
theorem claim9_witness :
    directionsRun (.response ⟨404, "Not Found", "<html>", .error "Unexpected token <"⟩) =
      .ok (errorEnvelope ("An error occurred while fetching directions: "
        ++ "Unexpected token <")) :=
  (claim9_error_body_parse_failure_caught
    ⟨404, "Not Found", "<html>", .error "Unexpected token <"⟩
    "Unexpected token <" (by decide) rfl).1

/-- Counterexample to C3 as stated: get_heatmap_tiles is not one of the two
binary adapters, yet on a 2xx response whose body is the JSON text
of an object it returns the raw body string, not the parsed object. -/
theorem claim3_counterexample_heatmap_raw_text :
    heatmapRun (.response ⟨200, "OK", "\x7b\"a\":1\x7d", .ok (.obj [("a", .num 1)])⟩)
      ≠ .ok (.obj [("a", .num 1)])
    ∧ heatmapRun (.response ⟨200, "OK", "\x7b\"a\":1\x7d", .ok (.obj [("a", .num 1)])⟩)
      = .ok (.str "\x7b\"a\":1\x7d") := by
  constructor
  · intro h
    simp [heatmapRun, statusOk] at h
  · simp [heatmapRun, statusOk]

/-- Claim C3 amended: every adapter embedded here other than the two binary
ones and get_heatmap_tiles returns a 2xx JSON body parsed and unchanged;
get_heatmap_tiles instead returns the raw body text unchanged, without
parsing it. -/
theorem claim3_json_passthrough_amended :
    (∀ (r : UpstreamResponse) (v : JsonValue),
      statusOk r.status = true → r.bodyJson = .ok v →
        directionsRun (.response r) = .ok v
        ∧ geocodeRun (.response r) = .ok v
        ∧ getRouteRun (.response r) = .ok v
        ∧ routeMatrixRun (.response r) = .ok v
        ∧ forecastRun (.response r) = .ok v)
    ∧ (∀ r : UpstreamResponse, statusOk r.status = true →
        heatmapRun (.response r) = .ok (.str r.bodyText)) := by
  constructor
  · intro r v hs hb
    exact ⟨jsonAdapterHandle_pass _ r v hs hb, jsonAdapterHandle_pass _ r v hs hb,
      jsonAdapterHandle_pass _ r v hs hb, jsonAdapterHandle_pass _ r v hs hb,
      jsonAdapterHandle_pass _ r v hs hb⟩
  · intro r hs
    simp [heatmapRun, hs]

/-- Witness for C3 amended: a concrete 200 response body passes through. -/
theorem claim3_witness :
    directionsRun (.response ⟨200, "OK", "", .ok (.obj [("status", .str "OK")])⟩) =
      .ok (.obj [("status", .str "OK")])
    ∧ heatmapRun (.response ⟨200, "OK", "tile-bytes", .ok .null⟩) = .ok (.str "tile-bytes") :=
  ⟨(claim3_json_passthrough_amended.1 ⟨200, "OK", "", .ok (.obj [("status", .str "OK")])⟩
      (.obj [("status", .str "OK")]) (by decide) rfl).1,
   claim3_json_passthrough_amended.2 ⟨200, "OK", "tile-bytes", .ok .null⟩ (by decide)⟩

/-- Claim C5, behaviour at the failing input: the single request issued by
get_video textually appends a second question mark followed by key=..., so
the server-side query parameters of the issued URL consist of one pair whose
name is videoId and whose value has swallowed the key text; no query
parameter named key exists and no X-Goog-Api-Key header is sent. -/
theorem claim5_get_video_key_not_a_parameter :
    queryParamsOfUrl (getVideoRequest "X" (some "K")).url = [("videoId", "X?key=K")]
    ∧ "key" ∉ (queryParamsOfUrl (getVideoRequest "X" (some "K")).url).map Prod.fst
    ∧ "X-Goog-Api-Key" ∉ (getVideoRequest "X" (some "K")).headers.map Prod.fst
    ∧ (getVideoRequest "X" (some "K")).url
      = "https://aerialview.googleapis.com/v1/videos:lookupVideo?videoId=X?key=K" := by
  refine ⟨by decide, by decide, by decide, by decide⟩

/-- Claim C6: get_route called with origin address A and destination address
B issues one POST to the computeRoutes endpoint whose body is exactly the
two-field JSON object and whose headers include the all-fields mask. -/
theorem claim6_get_route_request (key : Option String) :
    (getRouteRequest "A" "B" key).method = "POST"
    ∧ (getRouteRequest "A" "B" key).url
      = "https://routes.googleapis.com/directions/v2:computeRoutes"
    ∧ (getRouteRequest "A" "B" key).body
      = some "\x7b\"origin\":\x7b\"address\":\"A\"\x7d,\"destination\":\x7b\"address\":\"B\"\x7d\x7d"
    ∧ ("X-Goog-FieldMask", "*") ∈ (getRouteRequest "A" "B" key).headers :=
  ⟨rfl, rfl, by rfl, by simp [getRouteRequest]⟩

/-- Claim C7: geocode_address called with only the address argument issues a
GET whose query parameters are exactly address, language=en, region=en and
key, in that order, the space of the address being encoded as a plus sign. -/
theorem claim7_geocode_request (k : String) :
    geocodeQuery ⟨"1600 Amphitheatre Pkwy", none, none, none, none, none, none⟩ (some k)
      = [("address", "1600 Amphitheatre Pkwy"), ("language", "en"), ("region", "en"), ("key", k)]
    ∧ formEncode "1600 Amphitheatre Pkwy" = "1600+Amphitheatre+Pkwy"
    ∧ (geocodeRequest ⟨"1600 Amphitheatre Pkwy", none, none, none, none, none, none⟩
        (some k)).method = "GET"
    ∧ queryStringOf (geocodeQuery
        ⟨"1600 Amphitheatre Pkwy", none, none, none, none, none, none⟩ (some "K"))
      = "address=1600+Amphitheatre+Pkwy&language=en&region=en&key=K" :=
  ⟨rfl, by decide, rfl, by decide⟩

/-- Claim C8: the documented defaults apply exactly when the argument is
absent: get_directions without a mode argument encodes mode=driving, and
get_street_view without an fov argument encodes fov=90. -/
theorem claim8_documented_defaults (o d size : String) (key : Option String) :
    ("mode", "driving") ∈ directionsQuery
      ⟨o, d, none, none, none, none, none, none, none, none, none, none⟩ key
    ∧ ("fov", "90") ∈ streetViewQuery
      ⟨size, none, none, none, none, none, none, none, none, none⟩ key := by
  constructor
  · simp [directionsQuery]
  · simp [streetViewQuery]
    decide

/-- Counterexample to C10 as stated: get_forecast does check whether the
environment key is set before appending it, so with the variable unset its
query string carries no key parameter at all instead of the literal text
key=undefined. -/
theorem claim10_counterexample_forecast_omits_key :
    "key" ∉ (forecastQuery 1 2 3 none).map Prod.fst
    ∧ queryStringOf (forecastQuery 1 2 3 none)
      = "location.longitude=1&location.latitude=2&days=3" := by
  refine ⟨by decide, by decide⟩

/-- Claim C10 amended: with the environment variable unset no adapter fails
fast; the query-parameter adapters other than get_forecast serialize the
undefined key as the literal pair key=undefined, while get_forecast still
issues its request but omits the key parameter entirely. -/
theorem claim10_key_serialization_amended :
    (∀ (a : DirectionsArgs), ("key", "undefined") ∈ directionsQuery a none)
    ∧ (∀ (b : StreetViewArgs), ("key", "undefined") ∈ streetViewQuery b none)
    ∧ (∀ (g : GeocodeArgs), ("key", "undefined") ∈ geocodeQuery g none)
    ∧ (∀ lon lat d : Int, forecastQuery lon lat d none =
        [("location.longitude", toString lon), ("location.latitude", toString lat),
         ("days", toString d)]) := by
  refine ⟨fun a => ?_, fun b => ?_, fun g => ?_, fun lon lat d => rfl⟩
  · simp [directionsQuery, jsEnvString]
  · simp [streetViewQuery, jsEnvString]
  · simp [geocodeQuery, jsEnvString]

/-- Counterexample to C4 as stated: calling get_directions with the provided
optional field departure_time equal to 0 does not include that field in the
request (the truthiness guard drops falsy values), and the omitted optional
field mode does appear, carrying its documented default. -/
theorem claim4_counterexample_falsy_and_default :
    ("departure_time", "0") ∉ directionsQuery
      ⟨"A", "B", none, none, none, some 0, none, none, none, none, none, none⟩ (some "K")
    ∧ "departure_time" ∉ (directionsQuery
      ⟨"A", "B", none, none, none, some 0, none, none, none, none, none, none⟩
      (some "K")).map Prod.fst
    ∧ ("mode", "driving") ∈ directionsQuery
      ⟨"A", "B", none, none, none, some 0, none, none, none, none, none, none⟩ (some "K") := by
  refine ⟨by decide, by decide, by decide⟩

set_option maxHeartbeats 3200000 in
/-- Claim C4 amended, scoped to the two adapters the claim cites
(get_directions in directions.js and get_street_view in street-view.js):
every provided truthy optional field appears in the constructed query
verbatim; a provided falsy optional field does not appear, except mode,
language and units, which get_directions appends unconditionally and
verbatim; an omitted optional field appears exactly when its documented
destructuring default is itself truthy (mode=driving, language=en,
units=metric, traffic_model=best_guess, fov=90, radius=50), and then it
carries the default value, while the falsy defaults (pitch=0,
return_error_code=false) and the fields without defaults are not sent at
all when omitted; no null placeholders are ever sent upstream. -/
theorem claim4_optional_fields_amended (a : DirectionsArgs) (b : StreetViewArgs)
    (key : Option String) :
    (∀ n, a.departure_time = some n → n ≠ 0 →
        ("departure_time", toString n) ∈ directionsQuery a key)
    ∧ ((a.departure_time = none ∨ a.departure_time = some 0) →
        "departure_time" ∉ (directionsQuery a key).map Prod.fst)
    ∧ (∀ n, a.arrival_time = some n → n ≠ 0 →
        ("arrival_time", toString n) ∈ directionsQuery a key)
    ∧ ((a.arrival_time = none ∨ a.arrival_time = some 0) →
        "arrival_time" ∉ (directionsQuery a key).map Prod.fst)
    ∧ (a.alternatives = some true → ("alternatives", "true") ∈ directionsQuery a key)
    ∧ ((a.alternatives = none ∨ a.alternatives = some false) →
        "alternatives" ∉ (directionsQuery a key).map Prod.fst)
    ∧ (∀ s, a.avoid = some s → s ≠ "" → ("avoid", s) ∈ directionsQuery a key)
    ∧ ((a.avoid = none ∨ a.avoid = some "") →
        "avoid" ∉ (directionsQuery a key).map Prod.fst)
    ∧ (∀ s, a.waypoints = some s → s ≠ "" → ("waypoints", s) ∈ directionsQuery a key)
    ∧ ((a.waypoints = none ∨ a.waypoints = some "") →
        "waypoints" ∉ (directionsQuery a key).map Prod.fst)
    ∧ (∀ s, a.region = some s → s ≠ "" → ("region", s) ∈ directionsQuery a key)
    ∧ ((a.region = none ∨ a.region = some "") →
        "region" ∉ (directionsQuery a key).map Prod.fst)
    ∧ (∀ n, b.fov = some n → n ≠ 0 → ("fov", toString n) ∈ streetViewQuery b key)
    ∧ (∀ n, b.heading = some n → n ≠ 0 → ("heading", toString n) ∈ streetViewQuery b key)
    ∧ ((b.heading = none ∨ b.heading = some 0) →
        "heading" ∉ (streetViewQuery b key).map Prod.fst)
    ∧ (∀ s, b.location = some s → s ≠ "" → ("location", s) ∈ streetViewQuery b key)
    ∧ ((b.location = none ∨ b.location = some "") →
        "location" ∉ (streetViewQuery b key).map Prod.fst)
    ∧ (∀ s, b.pano = some s → s ≠ "" → ("pano", s) ∈ streetViewQuery b key)
    ∧ ((b.pano = none ∨ b.pano = some "") →
        "pano" ∉ (streetViewQuery b key).map Prod.fst)
    ∧ (b.return_error_code = some true →
        ("return_error_code", "true") ∈ streetViewQuery b key)
    ∧ ((b.return_error_code = none ∨ b.return_error_code = some false) →
        "return_error_code" ∉ (streetViewQuery b key).map Prod.fst)
    ∧ (∀ s, b.signature = some s → s ≠ "" → ("signature", s) ∈ streetViewQuery b key)
    ∧ ((b.signature = none ∨ b.signature = some "") →
        "signature" ∉ (streetViewQuery b key).map Prod.fst)
    ∧ (∀ s, b.source = some s → s ≠ "" → ("source", s) ∈ streetViewQuery b key)
    ∧ ((b.source = none ∨ b.source = some "") →
        "source" ∉ (streetViewQuery b key).map Prod.fst)
    ∧ (a.mode = none → ("mode", "driving") ∈ directionsQuery a key)
    ∧ (∀ s, a.mode = some s → ("mode", s) ∈ directionsQuery a key)
    ∧ (a.language = none → ("language", "en") ∈ directionsQuery a key)
    ∧ (∀ s, a.language = some s → ("language", s) ∈ directionsQuery a key)
    ∧ (a.units = none → ("units", "metric") ∈ directionsQuery a key)
    ∧ (∀ s, a.units = some s → ("units", s) ∈ directionsQuery a key)
    ∧ (a.traffic_model = none → ("traffic_model", "best_guess") ∈ directionsQuery a key)
    ∧ (∀ s, a.traffic_model = some s → s ≠ "" →
        ("traffic_model", s) ∈ directionsQuery a key)
    ∧ (a.traffic_model = some "" →
        "traffic_model" ∉ (directionsQuery a key).map Prod.fst)
    ∧ (b.fov = none → ("fov", "90") ∈ streetViewQuery b key)
    ∧ (b.fov = some 0 → "fov" ∉ (streetViewQuery b key).map Prod.fst)
    ∧ (b.radius = none → ("radius", "50") ∈ streetViewQuery b key)
    ∧ (∀ n, b.radius = some n → n ≠ 0 → ("radius", toString n) ∈ streetViewQuery b key)
    ∧ (b.radius = some 0 → "radius" ∉ (streetViewQuery b key).map Prod.fst)
    ∧ (∀ n, b.pitch = some n → n ≠ 0 → ("pitch", toString n) ∈ streetViewQuery b key)
    ∧ ((b.pitch = none ∨ b.pitch = some 0) →
        "pitch" ∉ (streetViewQuery b key).map Prod.fst) := by
  refine ⟨?_, ?_, ?_, ?_, ?_, ?_, ?_, ?_, ?_, ?_, ?_, ?_, ?_, ?_, ?_, ?_, ?_, ?_, ?_, ?_,
    ?_, ?_, ?_, ?_, ?_, ?_, ?_, ?_, ?_, ?_, ?_, ?_, ?_, ?_, ?_, ?_, ?_, ?_, ?_, ?_, ?_⟩
  · intro n h hn; simp [directionsQuery, h, hn]
  · intro h; rcases h with h | h <;> simp_all [directionsQuery, List.mem_map]
  · intro n h hn; simp [directionsQuery, h, hn]
  · intro h; rcases h with h | h <;> simp_all [directionsQuery, List.mem_map]
  · intro h; simp [directionsQuery, h]
  · intro h; rcases h with h | h <;> simp_all [directionsQuery, List.mem_map]
  · intro s h hs; simp [directionsQuery, h, hs]
  · intro h; rcases h with h | h <;> simp_all [directionsQuery, List.mem_map]
  · intro s h hs; simp [directionsQuery, h, hs]
  · intro h; rcases h with h | h <;> simp_all [directionsQuery, List.mem_map]
  · intro s h hs; simp [directionsQuery, h, hs]
  · intro h; rcases h with h | h <;> simp_all [directionsQuery, List.mem_map]
  · intro n h hn; simp [streetViewQuery, h, hn]
  · intro n h hn; simp [streetViewQuery, h, hn]
  · intro h; rcases h with h | h <;> simp_all [streetViewQuery, List.mem_map]
  · intro s h hs; simp [streetViewQuery, h, hs]
  · intro h; rcases h with h | h <;> simp_all [streetViewQuery, List.mem_map]
  · intro s h hs; simp [streetViewQuery, h, hs]
  · intro h; rcases h with h | h <;> simp_all [streetViewQuery, List.mem_map]
  · intro h; simp [streetViewQuery, h]
  · intro h; rcases h with h | h <;> simp_all [streetViewQuery, List.mem_map]
  · intro s h hs; simp [streetViewQuery, h, hs]
  · intro h; rcases h with h | h <;> simp_all [streetViewQuery, List.mem_map]
  · intro s h hs; simp [streetViewQuery, h, hs]
  · intro h; rcases h with h | h <;> simp_all [streetViewQuery, List.mem_map]
  · intro h; simp [directionsQuery, h]
  · intro s h; simp [directionsQuery, h]
  · intro h; simp [directionsQuery, h]
  · intro s h; simp [directionsQuery, h]
  · intro h; simp [directionsQuery, h]
  · intro s h; simp [directionsQuery, h]
  · intro h; simp [directionsQuery, h]
  · intro s h hs; simp [directionsQuery, h, hs]
  · intro h; simp_all [directionsQuery, List.mem_map]
  · intro h; simp [streetViewQuery, h]
    decide
  · intro h; simp_all [streetViewQuery, List.mem_map]
  · intro h; simp [streetViewQuery, h]
    decide
  · intro n h hn; simp [streetViewQuery, h, hn]
  · intro h; simp_all [streetViewQuery, List.mem_map]
  · intro n h hn; simp [streetViewQuery, h, hn]
  · intro h; rcases h with h | h <;> simp_all [streetViewQuery, List.mem_map]

set_option maxHeartbeats 1600000 in
/-- Witness for C4 amended at concrete arguments: a provided nonzero
departure_time and a provided avoid value appear, a region provided as the
empty string does not, a provided fov appears, a return_error_code provided
as false does not, an omitted mode appears as its truthy default driving, an
omitted radius appears as its truthy default 50, and an omitted pitch (falsy
default 0) does not appear. -/
theorem claim4_witness :
    ("departure_time", toString (7 : Int)) ∈ directionsQuery
      ⟨"A", "B", none, none, none, some 7, none, some true, some "tolls", none, some "", none⟩
      (some "K")
    ∧ ("avoid", "tolls") ∈ directionsQuery
      ⟨"A", "B", none, none, none, some 7, none, some true, some "tolls", none, some "", none⟩
      (some "K")
    ∧ "region" ∉ (directionsQuery
      ⟨"A", "B", none, none, none, some 7, none, some true, some "tolls", none, some "", none⟩
      (some "K")).map Prod.fst
    ∧ ("mode", "driving") ∈ directionsQuery
      ⟨"A", "B", none, none, none, some 7, none, some true, some "tolls", none, some "", none⟩
      (some "K")
    ∧ ("fov", toString (100 : Int)) ∈ streetViewQuery
      ⟨"600x300", some 100, none, none, none, none, none, some false, none, none⟩ (some "K")
    ∧ "return_error_code" ∉ (streetViewQuery
      ⟨"600x300", some 100, none, none, none, none, none, some false, none, none⟩
      (some "K")).map Prod.fst
    ∧ ("radius", "50") ∈ streetViewQuery
      ⟨"600x300", some 100, none, none, none, none, none, some false, none, none⟩ (some "K")
    ∧ "pitch" ∉ (streetViewQuery
      ⟨"600x300", some 100, none, none, none, none, none, some false, none, none⟩
      (some "K")).map Prod.fst := by
  obtain ⟨c1, c2, c3, c4, c5, c6, c7, c8, c9, c10, c11, c12, c13, c14, c15, c16, c17, c18,
    c19, c20, c21, c22, c23, c24, c25, c26, c27, c28, c29, c30, c31, c32, c33, c34, c35,
    c36, c37, c38, c39, c40, c41⟩ :=
    claim4_optional_fields_amended
      ⟨"A", "B", none, none, none, some 7, none, some true, some "tolls", none, some "", none⟩
      ⟨"600x300", some 100, none, none, none, none, none, some false, none, none⟩ (some "K")
  exact ⟨c1 7 rfl (by decide), c7 "tolls" rfl (by decide), c12 (Or.inr rfl),
    c26 rfl, c13 100 rfl (by decide), c21 (Or.inr rfl), c37 rfl, c41 (Or.inl rfl)⟩
